import Mathlib

/-!
Verification of the intent-dispatch-and-slot-filling pipeline of the
chatbot repository (src/main.py, src/utils/response_handlers.py,
src/utils/mongo_client.py, src/utils/graph_api.py).

The Python code is shallowly embedded: pure string logic is translated
directly; the external collaborators (document store, language model,
calendar API) are passed in as explicit parameters (a list of client
records, the already-parsed extractor output, and boolean outcomes for the
connection / calendar calls); the side-effecting calls a handler performs
are returned as an explicit list of effects.
-/

/-- ASCII fragment of Python `str.lower` / Lean `Char.toLower`:
uppercase A-Z maps to a-z, everything else is unchanged.  The messages and
keywords involved here are ASCII, where this coincides with `str.lower`. -/
def asciiLower (c : Char) : Char :=
  if c.toNat ≥ 65 && c.toNat ≤ 90 then Char.ofNat (c.toNat + 32) else c

/-- Python `s.lower()` (ASCII fragment). -/
def lowerStr (s : String) : String :=
  ⟨s.data.map asciiLower⟩

/-- `needle` is a prefix of `hay` (over character lists). -/
def startsWithL : List Char → List Char → Bool
  | [], _ => true
  | _ :: _, [] => false
  | a :: as, b :: bs => a == b && startsWithL as bs

/-- `needle` occurs contiguously somewhere in `hay`. -/
def containsSubL (needle : List Char) : List Char → Bool
  | [] => startsWithL needle []
  | b :: bs => startsWithL needle (b :: bs) || containsSubL needle bs

/-- Python's `needle in hay` substring test on strings. -/
def strContainsSub (hay needle : String) : Bool :=
  containsSubL needle.data hay.data

/-- Python truthiness of an `Optional[str]` value: `None` and the empty
string are falsy, every other string is truthy. -/
def strTruthy : Option String → Bool
  | none => false
  | some s => !(s == "")

/-- Python f-string interpolation of an `Optional[str]`: `None` renders as
the string "None". -/
def pyStr : Option String → String
  | none => "None"
  | some s => s

/-- Python `sep.join(parts)`. -/
def joinSep (sep : String) : List String → String
  | [] => ""
  | [x] => x
  | x :: y :: xs => x ++ sep ++ joinSep sep (y :: xs)

/-! ## Intent classifier (`determine_intent`, response_handlers.py lines 526-543) -/

/-- Greeting keywords checked first by `determine_intent`. -/
def greetingKeywords : List String := ["hello", "hi", "hey", "help"]

/-- Meeting keywords checked second by `determine_intent`. -/
def meetingKeywords : List String := ["schedule", "meeting", "appointment", "arrange", "book"]

/-- Payment keywords checked third by `determine_intent`. -/
def paymentKeywords : List String := ["payment", "reminder", "due", "amount", "pay", "invoice"]

/-- Python `any(word in text for word in kws)`. -/
def hasKeyword (kws : List String) (text : String) : Bool :=
  kws.any (fun w => strContainsSub text w)

/-- `determine_intent` from response_handlers.py: lower-case the prompt and
test the three keyword sets in order, defaulting to "general". -/
def determine_intent (prompt : String) : String :=
  let prompt_lower := lowerStr prompt
  if hasKeyword greetingKeywords prompt_lower then "greeting"
  else if hasKeyword meetingKeywords prompt_lower then "meeting"
  else if hasKeyword paymentKeywords prompt_lower then "payment_reminder"
  else "general"

/-! ## Dispatcher (`bot_calling_functions`, main.py lines 11-31) -/

/-- The handlers `bot_calling_functions` can dispatch to.  There is one
constructor per branch of its if/elif chain: `handle_greeting`,
`extract_meeting_info`, `handle_task_management`, and the `else` branch
`handle_general_query`. -/
inductive Handler where
  | greetingH
  | meetingH
  | taskH
  | generalH
deriving DecidableEq, Repr

/-- The dispatch branch of `bot_calling_functions` in src/main.py: which
handler processes the prompt, as a function of `determine_intent`. -/
def bot_calling_functions_route (user_prompt : String) : Handler :=
  let intent := determine_intent user_prompt
  if intent == "greeting" then Handler.greetingH
  else if intent == "meeting" then Handler.meetingH
  else if intent == "task" then Handler.taskH
  else Handler.generalH

/-! ## Directory lookup (`MongoDBClient.verify_client`, mongo_client.py lines 41-57) -/

/-- A document of the external "clients" collection, as read by this
system: a name and an optional email (the code reads it with
`client.get("email")`). -/
structure ClientRecord where
  name : String
  email : Option String
deriving DecidableEq, Repr

/-- One position of an anchored pattern against one character, under the
case-insensitive option: `.` matches any character, any other character
matches itself up to ASCII case. -/
def patCharMatches (p c : Char) : Bool :=
  p == '.' || asciiLower p == asciiLower c

/-- Models the MongoDB query
`{"name": {"$regex": f"^{client_name}$", "$options": "i"}}` issued by
`verify_client`: the queried name is interpolated unescaped into an
anchored, case-insensitive regular expression.  This embedding covers the
pattern fragment consisting of literal characters and the `.` wildcard
(no other PCRE metacharacter appears in the inputs considered here): the
anchors force the pattern and the stored name to have the same length and
to match position by position. -/
def regexMatchAnchoredCI (pattern s : String) : Bool :=
  pattern.data.length == s.data.length &&
  (List.zip pattern.data s.data).all (fun pc => patCharMatches pc.1 pc.2)

/-- `MongoDBClient.verify_client`: `find_one` returns the first stored
document whose name field matches the anchored case-insensitive regex
built from the queried name; on a hit the result is
`(True, client.get("email"))`, otherwise `(False, None)`. -/
def verify_client (store : List ClientRecord) (client_name : String) :
    Bool × Option String :=
  match store.find? (fun r => regexMatchAnchoredCI client_name r.name) with
  | some r => (true, r.email)
  | none => (false, none)

/-! ## Date/time validation (`validate_date_time`, response_handlers.py lines 205-222)

`datetime.strptime(s, "%Y-%m-%d")` accepts exactly: four digits, "-",
a one- or two-digit month 1-12, "-", a one- or two-digit day that is
valid for that month and year (Gregorian leap rule), with nothing left
over, and the year at least 1.  `strptime(s, "%H:%M")` accepts a one- or
two-digit hour 0-23, ":", a one- or two-digit minute 0-59. -/

/-- Python `s.split(sep)` for a single-character separator, over
character lists. -/
def splitOnChar (sep : Char) : List Char → List (List Char)
  | [] => [[]]
  | c :: cs =>
    if c == sep then [] :: splitOnChar sep cs
    else
      match splitOnChar sep cs with
      | [] => [[c]]
      | p :: ps => (c :: p) :: ps

/-- Numeric value of a list of decimal digit characters. -/
def natValL (l : List Char) : Nat :=
  l.foldl (fun n c => n * 10 + (c.toNat - 48)) 0

/-- Gregorian leap-year rule used by `datetime`. -/
def isLeapYear (y : Nat) : Bool :=
  y % 4 == 0 && (y % 100 != 0 || y % 400 == 0)

/-- Days in a month, as `datetime` validates the day field. -/
def daysInMonth (y m : Nat) : Nat :=
  if m == 2 then (if isLeapYear y then 29 else 28)
  else if m == 4 || m == 6 || m == 9 || m == 11 then 30
  else 31

/-- A one- or two-digit decimal field, as matched by strptime for
months, days, hours and minutes. -/
def digits12 (l : List Char) : Bool :=
  (l.length == 1 || l.length == 2) && l.all Char.isDigit

/-- `datetime.strptime(s, "%Y-%m-%d")` succeeds. -/
def isValidDateStr (s : String) : Bool :=
  match splitOnChar '-' s.data with
  | [y, m, d] =>
    y.length == 4 && y.all Char.isDigit && decide (1 ≤ natValL y) &&
    digits12 m && decide (1 ≤ natValL m) && decide (natValL m ≤ 12) &&
    digits12 d && decide (1 ≤ natValL d) &&
    decide (natValL d ≤ daysInMonth (natValL y) (natValL m))
  | _ => false

/-- `datetime.strptime(s, "%H:%M")` succeeds. -/
def isValidTimeStr (s : String) : Bool :=
  match splitOnChar ':' s.data with
  | [h, m] =>
    digits12 h && decide (natValL h ≤ 23) &&
    digits12 m && decide (natValL m ≤ 59)
  | _ => false

/-- `validate_date_time` from response_handlers.py: a present (truthy)
date is checked against YYYY-MM-DD, then a present (truthy) time against
HH:MM; the first failure yields `(False, message)` naming the offending
value, otherwise `(True, "")`. -/
def validate_date_time (date_str time_str : Option String) : Bool × String :=
  if strTruthy date_str && !isValidDateStr (date_str.getD "") then
    (false, "Invalid date format: " ++ date_str.getD "" ++ ". Please use YYYY-MM-DD format.")
  else if strTruthy time_str && !isValidTimeStr (time_str.getD "") then
    (false, "Invalid time format: " ++ time_str.getD "" ++ ". Please use HH:MM format (24-hour).")
  else (true, "")

/-! ## Duration parsing (`parse_duration`, response_handlers.py lines 187-203) -/

/-- Python `int(t)` on a whitespace-free token: an optional sign followed
by decimal digits (exotic forms such as underscores are not produced by
the inputs modelled here). -/
def parseIntToken (t : String) : Option Int :=
  if t.data.take 1 == ['-'] then
    ((String.mk (t.data.drop 1)).toNat?).map (fun n => -(n : Int))
  else if t.data.take 1 == ['+'] then
    ((String.mk (t.data.drop 1)).toNat?).map (fun n => (n : Int))
  else
    (t.toNat?).map (fun n => (n : Int))

/-- Python `int(s.split()[0])` as an `Option`: `s.split()` splits on
whitespace runs and drops empty pieces; `none` models the `IndexError`
(empty split) or `ValueError` (non-numeric token) that `parse_duration`
catches. -/
def firstTokenInt (s : String) : Option Int :=
  match (s.split Char.isWhitespace).filter (fun t => !(t == "")) with
  | [] => none
  | t :: _ => parseIntToken t

/-- `parse_duration`: falsy input defaults to 60 minutes; otherwise the
lower-cased string containing "hour" yields its leading integer times 60,
containing "min" yields the leading integer, anything else (or an
unparsable leading token) defaults to 60. -/
def parse_duration (duration_str : Option String) : Int :=
  match duration_str with
  | none => 60
  | some s =>
    if s == "" then 60
    else
      let ds := lowerStr s
      if strContainsSub ds "hour" then
        match firstTokenInt ds with
        | some n => n * 60
        | none => 60
      else if strContainsSub ds "min" then
        match firstTokenInt ds with
        | some n => n
        | none => 60
      else 60

/-! ## Meeting data model and calendar call -/

/-- The `MeetingDetails` dataclass (response_handlers.py lines 18-27).
`duration` is declared `str = "1 hour"` in Python but receives
`extracted_info.get("duration", "1 hour")`, which can be `None` when the
model returns a JSON null, so it is optional here too. -/
structure MeetingDetails where
  client_name : Option String := none
  client_email : Option String := none
  date : Option String := none
  time : Option String := none
  duration : Option String := some "1 hour"
  purpose : Option String := none
  calendar_event : Option String := none
deriving DecidableEq, Repr

/-- The parsed JSON object returned by the extraction call in
`extract_meeting_info`.  For `client_name`, `date`, `time` and `purpose`
the code reads `extracted_info.get(key)`, which conflates an absent key
with a JSON null, so `Option String` is exact.  For `duration` the code
reads `extracted_info.get("duration", "1 hour")`, which distinguishes an
absent key (outer `none`, default applies) from a null value
(`some none`). -/
structure ExtractedMeeting where
  client_name : Option String := none
  date : Option String := none
  time : Option String := none
  duration : Option (Option String) := none
  purpose : Option String := none
deriving DecidableEq, Repr

/-- The arguments of the single Microsoft Graph `create_calendar_event`
call (graph_api.py lines 37-88): organizer, attendee, subject, and the
start/duration data the ISO start and end timestamps are computed from
(`end = start + timedelta(minutes=parse_duration(duration))`). -/
structure CalendarCallArgs where
  user_email : String
  attendee_email : Option String
  subject : String
  date : String
  time : String
  duration_mins : Int
  description : String
deriving DecidableEq, Repr

/-- The externally observable calls a handler makes during one turn:
a directory lookup (`verify_client`) or a calendar-creation call. -/
inductive Effect where
  | dirLookup (name : String)
  | calendarCall (args : CalendarCallArgs)
deriving DecidableEq, Repr

/-- Whether an effect is the calendar-creation call. -/
def Effect.isCalCall : Effect → Bool
  | .calendarCall _ => true
  | .dirLookup _ => false

/-- `create_calendar_event` (response_handlers.py lines 224-248): parse
`f"{date} {time}"` with strptime (the `except` branch returns
`(False, "error: ...")` without reaching the Graph call), then call the
Graph API — whose outcome is the `calOk` parameter — and report
`(True, "created")` or `(False, "failed")`.  The returned effect list
records whether the Graph call happened. -/
def create_calendar_event (details : MeetingDetails) (user_email : String)
    (calOk : Bool) : (Bool × String) × List Effect :=
  match details.date, details.time with
  | some d, some t =>
    if isValidDateStr d && isValidTimeStr t then
      let args : CalendarCallArgs :=
        { user_email := user_email
          attendee_email := details.client_email
          subject := "Meeting with " ++ pyStr details.client_name
          date := d
          time := t
          duration_mins := parse_duration details.duration
          description := if strTruthy details.purpose then pyStr details.purpose else "Business Meeting" }
      if calOk then ((true, "created"), [Effect.calendarCall args])
      else ((false, "failed"), [Effect.calendarCall args])
    else ((false, "error: time data does not match format"), [])
  | _, _ => ((false, "error: time data does not match format"), [])

/-- `get_missing_parameters` (response_handlers.py lines 250-263): the
required fields, in order, that are falsy on the details object.
Duration is never inspected. -/
def get_missing_parameters (details : MeetingDetails) : List String :=
  (if strTruthy details.client_name then [] else ["client name"]) ++
  (if strTruthy details.date then [] else ["date"]) ++
  (if strTruthy details.time then [] else ["time"]) ++
  (if strTruthy details.purpose then [] else ["purpose"])

/-- `format_meeting_response` (response_handlers.py lines 265-276). -/
def format_meeting_response (details : MeetingDetails)
    (missing_params : List String) : String :=
  if !missing_params.isEmpty then
    "I need the following information to schedule the meeting: " ++
      joinSep ", " missing_params ++ "."
  else
    let response := "Meeting scheduled with " ++ pyStr details.client_name ++
      " on " ++ pyStr details.date ++ " at " ++ pyStr details.time ++
      " for " ++ pyStr details.duration ++ "."
    if strTruthy details.purpose then
      response ++ " Purpose: " ++ pyStr details.purpose ++ "."
    else response

/-! ## Handler results and the response formatter -/

/-- The `"details"` dictionary of a meeting response
(response_handlers.py lines 427-436).  The `error` and `calendar_event`
keys are never put there by `extract_meeting_info` (the assignment
`details.calendar_event = status` is commented out and the dict omits the
key); `none` models the absent key, which is what
`details.get("calendar_event")` observes in `format_response`. -/
structure MeetingResponseDetails where
  client_name : Option String
  client_email : Option String
  date : Option String
  time : Option String
  duration : Option String
  purpose : Option String
  error : Option String := none
  calendar_event : Option String := none
deriving DecidableEq, Repr

/-- The dictionaries handlers return, tagged by `response_type`
(`DispatchResult`).  Only the "meeting" tag carries details and a
missing-parameter list; `missing_params` is optional so the formatter can
be stated against meeting results whose list is absent.  `unknown` stands
for any tag `format_response` does not recognise (e.g. the
`"response_type": "unknown"` produced by `handle_greeting`). -/
inductive RespData where
  | error (message : String)
  | greeting (message : String)
  | meeting (details : MeetingResponseDetails) (missing_params : Option (List String)) (message : String)
  | payment_reminder (message : String)
  | general (message : String)
  | unknown (message : String)
deriving DecidableEq, Repr

/-- The meeting-response dictionary built at the end of
`extract_meeting_info` (lines 421-440): fresh details dict (six keys),
`missing_params` from `get_missing_parameters`, and the message from
`format_meeting_response`. -/
def meetingResult (details : MeetingDetails) : RespData :=
  RespData.meeting
    { client_name := details.client_name
      client_email := details.client_email
      date := details.date
      time := details.time
      duration := details.duration
      purpose := details.purpose
      error := none
      calendar_event := none }
    (some (get_missing_parameters details))
    (format_meeting_response details (get_missing_parameters details))

/-- The `MeetingDetails(...)` construction from the parsed extractor
output (response_handlers.py lines 390-396). -/
def detailsOfExtracted (info : ExtractedMeeting) : MeetingDetails :=
  { client_name := info.client_name
    client_email := none
    date := info.date
    time := info.time
    duration := info.duration.getD (some "1 hour")
    purpose := info.purpose
    calendar_event := none }

/-- `extract_meeting_info` (response_handlers.py lines 351-450), from the
point where the extractor output is available: `dbOk` is the outcome of
`mongo_client.connect()`, `store` the clients collection, `calOk` the
outcome of the Graph call.  Returns the response dictionary and the list
of external calls made during the turn. -/
def extract_meeting_info (info : ExtractedMeeting) (store : List ClientRecord)
    (user_email : String) (dbOk : Bool) (calOk : Bool) : RespData × List Effect :=
  if dbOk = false then (RespData.error "Database connection failed", [])
  else
    let details := detailsOfExtracted info
    if (validate_date_time details.date details.time).1 = false then
      (RespData.error (validate_date_time details.date details.time).2, [])
    else if strTruthy details.client_name then
      if (verify_client store (details.client_name.getD "")).1 = false then
        (RespData.error ("Client '" ++ details.client_name.getD "" ++ "' not found"),
         [Effect.dirLookup (details.client_name.getD "")])
      else
        let details2 := { details with
          client_email := (verify_client store (details.client_name.getD "")).2 }
        if strTruthy details2.date && strTruthy details2.time then
          (meetingResult details2,
           Effect.dirLookup (details.client_name.getD "") ::
             (create_calendar_event details2 user_email calOk).2)
        else
          (meetingResult details2, [Effect.dirLookup (details.client_name.getD "")])
    else
      (meetingResult details, [])

/-- `format_response` (response_handlers.py lines 478-524). -/
def format_response : RespData → String
  | RespData.error message => "Sorry, an error occurred: " ++ message
  | RespData.greeting message => message
  | RespData.meeting details _ _ =>
    match details.error with
    | some e => "Sorry, " ++ e
    | none =>
      let missing :=
        (if strTruthy details.client_name then [] else ["client name"]) ++
        (if strTruthy details.date then [] else ["date"]) ++
        (if strTruthy details.time then [] else ["time"])
      if !missing.isEmpty then
        "I need the following information to schedule the meeting: " ++
          joinSep ", " missing
      else
        let r0 := "Meeting scheduled with " ++ pyStr details.client_name
        let r1 := if strTruthy details.client_email then
            r0 ++ " (email: " ++ pyStr details.client_email ++ ")"
          else r0
        let r2 := r1 ++ " on " ++ pyStr details.date ++ " at " ++ pyStr details.time
        let r3 := if strTruthy details.duration then
            r2 ++ " for " ++ pyStr details.duration
          else r2
        let r4 := if strTruthy details.purpose then
            r3 ++ ". Purpose: " ++ pyStr details.purpose
          else r3
        if details.calendar_event == some "created" then
          r4 ++ "\nOutlook calendar event has been created and invites have been sent."
        else if details.calendar_event == some "failed" then
          r4 ++ "\nNote: Failed to create Outlook calendar event."
        else if (details.calendar_event.getD "").startsWith "error" then
          r4 ++ "\nNote: Error creating calendar event - " ++ pyStr details.calendar_event
        else r4
  | RespData.payment_reminder message => message
  | RespData.general message => message
  | RespData.unknown _ => "I'm not sure how to handle that request."

/-! ## Theorems for claims C5, C10, C1 -/

/-- C5: `determine_intent` is total and returns exactly one of the four
intents, checking the keyword sets in fixed priority order (greeting, then
meeting, then payment; first match wins), defaulting to "general" when no
keyword matches (including the empty string); a message containing both
"hi" and "meeting" is classified "greeting". -/
theorem determine_intent_total_fixed_priority :
    (∀ s, determine_intent s = "greeting" ∨ determine_intent s = "meeting" ∨
       determine_intent s = "payment_reminder" ∨ determine_intent s = "general")
    ∧ (∀ s, hasKeyword greetingKeywords (lowerStr s) = true →
        determine_intent s = "greeting")
    ∧ (∀ s, hasKeyword greetingKeywords (lowerStr s) = false →
        hasKeyword meetingKeywords (lowerStr s) = true →
        determine_intent s = "meeting")
    ∧ (∀ s, hasKeyword greetingKeywords (lowerStr s) = false →
        hasKeyword meetingKeywords (lowerStr s) = false →
        hasKeyword paymentKeywords (lowerStr s) = true →
        determine_intent s = "payment_reminder")
    ∧ (∀ s, hasKeyword greetingKeywords (lowerStr s) = false →
        hasKeyword meetingKeywords (lowerStr s) = false →
        hasKeyword paymentKeywords (lowerStr s) = false →
        determine_intent s = "general")
    ∧ determine_intent "" = "general"
    ∧ determine_intent "hi, set up a meeting" = "greeting" := by
  refine ⟨?_, ?_, ?_, ?_, ?_, by decide, by decide⟩
  · intro s
    by_cases h1 : hasKeyword greetingKeywords (lowerStr s) = true
    · exact Or.inl (by simp [determine_intent, h1])
    · by_cases h2 : hasKeyword meetingKeywords (lowerStr s) = true
      · exact Or.inr (Or.inl (by simp [determine_intent, h1, h2]))
      · by_cases h3 : hasKeyword paymentKeywords (lowerStr s) = true
        · exact Or.inr (Or.inr (Or.inl (by simp [determine_intent, h1, h2, h3])))
        · exact Or.inr (Or.inr (Or.inr (by simp [determine_intent, h1, h2, h3])))
  · intro s h1
    simp [determine_intent, h1]
  · intro s h1 h2
    simp [determine_intent, h1, h2]
  · intro s h1 h2 h3
    simp [determine_intent, h1, h2, h3]
  · intro s h1 h2 h3
    simp [determine_intent, h1, h2, h3]

/-- Witness for C5: the priority clauses applied at concrete inputs. -/
theorem determine_intent_total_fixed_priority_witness :
    determine_intent "hi, set up a meeting" = "greeting" ∧
    determine_intent "book a slot" = "meeting" ∧
    determine_intent "invoice coming" = "payment_reminder" ∧
    determine_intent "what time is it" = "general" :=
  ⟨determine_intent_total_fixed_priority.2.1 "hi, set up a meeting" (by decide),
   determine_intent_total_fixed_priority.2.2.1 "book a slot" (by decide) (by decide),
   determine_intent_total_fixed_priority.2.2.2.1 "invoice coming" (by decide) (by decide) (by decide),
   determine_intent_total_fixed_priority.2.2.2.2.1 "what time is it" (by decide) (by decide) (by decide)⟩

/-- C10: keyword tests are substring containment in the lower-cased
message, not whole-word membership: any message containing "hi"
anywhere (also inside another word such as "this" or "Hilton") is
classified "greeting", even when meeting or payment keywords are present
and there is no standalone greeting word. -/
theorem determine_intent_substring_containment :
    (∀ s, strContainsSub (lowerStr s) "hi" = true → determine_intent s = "greeting")
    ∧ determine_intent "Schedule this meeting" = "greeting"
    ∧ determine_intent "The Hilton invoice is due" = "greeting" := by
  refine ⟨?_, by decide, by decide⟩
  intro s h
  have hg : hasKeyword greetingKeywords (lowerStr s) = true := by
    simp only [hasKeyword, greetingKeywords, List.any_eq_true]
    exact ⟨"hi", by simp, h⟩
  simp [determine_intent, hg]

/-- Witness for C10: the containment clause applied at a concrete input
whose only greeting keyword occurrence is inside another word. -/
theorem determine_intent_substring_containment_witness :
    determine_intent "this appointment" = "greeting" :=
  determine_intent_substring_containment.1 "this appointment" (by decide)

/-- C1 (code bug): a message the intent classifier labels
"payment_reminder" is dispatched by `bot_calling_functions` to the
general-query handler, not to the payment reminder handler
`extract_payment_info` — the dispatcher has no payment branch at all. -/
theorem payment_intent_dispatched_to_general_query :
    determine_intent "send a payment reminder" = "payment_reminder" ∧
    bot_calling_functions_route "send a payment reminder" = Handler.generalH := by
  constructor
  · decide
  · decide

/-! ## Theorems for claims C7, C6, C9 -/

/-- C7 (code bug): `verify_client` interpolates the queried name
unescaped into the regex, so a query with a `.` metacharacter matches a
stored name it is not equal to (even case-insensitively): regex
injection instead of anchored exact matching.  Literal queries do match
exactly and case-insensitively ("acme" hits, the proper prefix "acm"
does not). -/
theorem verify_client_regex_injection :
    verify_client [⟨"Acme", some "a@x.com"⟩] "Acm." = (true, some "a@x.com") ∧
    lowerStr "Acm." ≠ lowerStr "Acme" ∧
    verify_client [⟨"Acme", some "a@x.com"⟩] "acme" = (true, some "a@x.com") ∧
    verify_client [⟨"Acme", some "a@x.com"⟩] "acm" = (false, none) := by
  refine ⟨by decide, by decide, by decide, by decide⟩

/-- Membership in `get_missing_parameters`: exactly the falsy ones of the
four required fields. -/
theorem mem_missing_params (x : String) (details : MeetingDetails) :
    x ∈ get_missing_parameters details ↔
      ((x = "client name" ∧ strTruthy details.client_name = false) ∨
       (x = "date" ∧ strTruthy details.date = false) ∨
       (x = "time" ∧ strTruthy details.time = false) ∨
       (x = "purpose" ∧ strTruthy details.purpose = false)) := by
  cases h1 : strTruthy details.client_name <;> cases h2 : strTruthy details.date <;>
    cases h3 : strTruthy details.time <;> cases h4 : strTruthy details.purpose <;>
    simp [get_missing_parameters, h1, h2, h3, h4]

/-- C6: the missing-required-field computation returns exactly those of
client name, date, time and purpose that are absent (falsy), never
duration; when only purpose is absent the result is exactly
["purpose"]. -/
theorem get_missing_parameters_exact (details : MeetingDetails) :
    "duration" ∉ get_missing_parameters details
    ∧ (∀ x ∈ get_missing_parameters details,
        x ∈ ["client name", "date", "time", "purpose"])
    ∧ (("client name" ∈ get_missing_parameters details) ↔
        strTruthy details.client_name = false)
    ∧ (("date" ∈ get_missing_parameters details) ↔ strTruthy details.date = false)
    ∧ (("time" ∈ get_missing_parameters details) ↔ strTruthy details.time = false)
    ∧ (("purpose" ∈ get_missing_parameters details) ↔
        strTruthy details.purpose = false)
    ∧ (strTruthy details.client_name = true → strTruthy details.date = true →
        strTruthy details.time = true → strTruthy details.purpose = false →
        get_missing_parameters details = ["purpose"]) := by
  refine ⟨?_, ?_, ?_, ?_, ?_, ?_, ?_⟩
  · intro h
    rcases (mem_missing_params _ details).mp h with ⟨h', _⟩ | ⟨h', _⟩ | ⟨h', _⟩ | ⟨h', _⟩ <;>
      simp at h'
  · intro x hx
    rcases (mem_missing_params _ details).mp hx with ⟨h', _⟩ | ⟨h', _⟩ | ⟨h', _⟩ | ⟨h', _⟩ <;>
      simp [h']
  · rw [mem_missing_params]
    simp
  · rw [mem_missing_params]
    simp
  · rw [mem_missing_params]
    simp
  · rw [mem_missing_params]
    simp
  · intro h1 h2 h3 h4
    simp [get_missing_parameters, h1, h2, h3, h4]

/-- Witness for C6: only purpose absent flags exactly ["purpose"]. -/
theorem get_missing_parameters_exact_witness :
    get_missing_parameters
      ⟨some "Acme", none, some "2024-03-01", some "14:00", some "1 hour", none, none⟩ =
      ["purpose"] :=
  (get_missing_parameters_exact _).2.2.2.2.2.2 (by decide) (by decide) (by decide) (by decide)

/-- C9: the formatter's output for a meeting-tagged result is determined
by the detail fields alone — the upstream missing-parameter list (present,
absent or stale) and the upstream message are never read, so two meeting
results with identical details format identically. -/
theorem format_response_meeting_ignores_upstream_missing
    (d : MeetingResponseDetails) (m1 m2 : Option (List String)) (s1 s2 : String) :
    format_response (RespData.meeting d m1 s1) =
      format_response (RespData.meeting d m2 s2) := rfl

/-! ## Theorems for claims C2, C3, C8, C4 -/

/-- C2 counterexample: the extracted slots of this turn contain both a
date and a time, but no client name — and the handler performs no
calendar-creation call (and indeed no external call at all): booking is
not attempted "regardless of whether a client name was supplied". -/
theorem meeting_date_time_without_client_skips_calendar :
    strTruthy (ExtractedMeeting.date
        ⟨none, some "2024-03-01", some "14:00", none, some "review"⟩) = true ∧
    strTruthy (ExtractedMeeting.time
        ⟨none, some "2024-03-01", some "14:00", none, some "review"⟩) = true ∧
    (extract_meeting_info ⟨none, some "2024-03-01", some "14:00", none, some "review"⟩
        [⟨"Acme", some "a@x.com"⟩] "u@corp.com" true true).2 = [] := by
  refine ⟨by decide, by decide, by decide⟩

/-- C2 (amended): when the extracted date and time are both present (and
well-formed), the handler attempts calendar creation provided the client
name is also present and resolves in the directory; the call carries the
acting user as organizer, the resolved email as attendee, and the subject
"Meeting with {client_name}". -/
theorem extract_meeting_calendar_attempt_with_resolved_client
    (info : ExtractedMeeting) (store : List ClientRecord) (ue : String)
    (calOk : Bool) (e : Option String)
    (hval : (validate_date_time info.date info.time).1 = true)
    (hname : strTruthy info.client_name = true)
    (hver : verify_client store (info.client_name.getD "") = (true, e))
    (hdate : strTruthy info.date = true)
    (htime : strTruthy info.time = true) :
    ∃ args : CalendarCallArgs,
      Effect.calendarCall args ∈ (extract_meeting_info info store ue true calOk).2
      ∧ args.user_email = ue
      ∧ args.attendee_email = e
      ∧ args.subject = "Meeting with " ++ info.client_name.getD "" := by
  obtain ⟨n, hn⟩ : ∃ n, info.client_name = some n := by
    cases hc : info.client_name
    · rw [hc] at hname; simp [strTruthy] at hname
    · exact ⟨_, rfl⟩
  obtain ⟨d, hd⟩ : ∃ d, info.date = some d := by
    cases hc : info.date
    · rw [hc] at hdate; simp [strTruthy] at hdate
    · exact ⟨_, rfl⟩
  obtain ⟨t, ht⟩ : ∃ t, info.time = some t := by
    cases hc : info.time
    · rw [hc] at htime; simp [strTruthy] at htime
    · exact ⟨_, rfl⟩
  rw [hd] at hdate
  rw [ht] at htime
  rw [hn] at hname hver
  have hvd : isValidDateStr d = true := by
    by_contra h
    rw [Bool.not_eq_true] at h
    rw [hd, ht] at hval
    simp [validate_date_time, hdate, h] at hval
  have hvt : isValidTimeStr t = true := by
    by_contra h
    rw [Bool.not_eq_true] at h
    rw [hd, ht] at hval
    simp [validate_date_time, hdate, htime, hvd, h] at hval
  have hver' : verify_client store n = (true, e) := by
    rw [Option.getD_some] at hver
    exact hver
  refine ⟨{ user_email := ue
            attendee_email := e
            subject := "Meeting with " ++ n
            date := d
            time := t
            duration_mins := parse_duration (info.duration.getD (some "1 hour"))
            description := if strTruthy info.purpose then pyStr info.purpose
              else "Business Meeting" }, ?_, rfl, rfl, by rw [hn]; rfl⟩
  have hres : (extract_meeting_info info store ue true calOk).2 =
      [Effect.dirLookup n,
       Effect.calendarCall
        { user_email := ue
          attendee_email := e
          subject := "Meeting with " ++ n
          date := d
          time := t
          duration_mins := parse_duration (info.duration.getD (some "1 hour"))
          description := if strTruthy info.purpose then pyStr info.purpose
            else "Business Meeting" }] := by
    cases calOk <;>
      simp [extract_meeting_info, detailsOfExtracted, create_calendar_event,
        validate_date_time, hn, hd, ht, hname, hdate, htime, hvd, hvt, hver', pyStr]
  rw [hres]
  simp

/-- Witness for C2's amended theorem at a concrete resolved client with
date and time present. -/
theorem extract_meeting_calendar_attempt_with_resolved_client_witness :
    ∃ args : CalendarCallArgs,
      Effect.calendarCall args ∈
        (extract_meeting_info ⟨some "Acme", some "2024-03-01", some "14:00", none, some "review"⟩
          [⟨"Acme", some "a@x.com"⟩] "u@corp.com" true true).2
      ∧ args.user_email = "u@corp.com"
      ∧ args.attendee_email = some "a@x.com"
      ∧ args.subject = "Meeting with " ++
          (Option.getD (ExtractedMeeting.client_name
            ⟨some "Acme", some "2024-03-01", some "14:00", none, some "review"⟩) "") :=
  extract_meeting_calendar_attempt_with_resolved_client
    ⟨some "Acme", some "2024-03-01", some "14:00", none, some "review"⟩
    [⟨"Acme", some "a@x.com"⟩] "u@corp.com" true (some "a@x.com")
    (by decide) (by decide) (by decide) (by decide) (by decide)

/-- C3 counterexample: purpose — a required field — is missing from the
extracted slots, yet the handler does call the calendar-creation
interface (while its message still asks for the purpose). -/
theorem meeting_missing_purpose_still_attempts_calendar :
    ((extract_meeting_info ⟨some "Acme", some "2024-03-01", some "14:00", none, none⟩
        [⟨"Acme", some "a@x.com"⟩] "u@corp.com" true true).2.any Effect.isCalCall) = true ∧
    (extract_meeting_info ⟨some "Acme", some "2024-03-01", some "14:00", none, none⟩
        [⟨"Acme", some "a@x.com"⟩] "u@corp.com" true true).1 =
      RespData.meeting
        ⟨some "Acme", some "a@x.com", some "2024-03-01", some "14:00",
         some "1 hour", none, none, none⟩
        (some ["purpose"])
        "I need the following information to schedule the meeting: purpose." := by
  refine ⟨by decide, by decide⟩

/-- C3 (amended): when client name, date or time is missing from the
extracted slots the handler never calls the calendar-creation interface;
and provided the turn is not ended earlier by a connection, validation or
client-not-found error, it returns a meeting response whose message asks
for exactly the missing required fields.  (A missing purpose alone does
not prevent the calendar call — see the counterexample.) -/
theorem extract_meeting_missing_field_no_calendar
    (info : ExtractedMeeting) (store : List ClientRecord) (ue : String)
    (dbOk calOk : Bool)
    (hmiss : strTruthy info.client_name = false ∨ strTruthy info.date = false ∨
      strTruthy info.time = false) :
    ((extract_meeting_info info store ue dbOk calOk).2.any Effect.isCalCall = false)
    ∧ (dbOk = true →
       (validate_date_time info.date info.time).1 = true →
       (strTruthy info.client_name = false ∨
         (verify_client store (info.client_name.getD "")).1 = true) →
       ∃ dts miss,
         (extract_meeting_info info store ue dbOk calOk).1 =
           RespData.meeting dts (some miss)
             ("I need the following information to schedule the meeting: " ++
               joinSep ", " miss ++ ".")
         ∧ miss ≠ []
         ∧ (("client name" ∈ miss) ↔ strTruthy info.client_name = false)
         ∧ (("date" ∈ miss) ↔ strTruthy info.date = false)
         ∧ (("time" ∈ miss) ↔ strTruthy info.time = false)
         ∧ (("purpose" ∈ miss) ↔ strTruthy info.purpose = false)) := by
  have hmiss_mem : ∃ x, x ∈ get_missing_parameters (detailsOfExtracted info) := by
    rcases hmiss with h | h | h
    · exact ⟨"client name", (mem_missing_params _ _).mpr (Or.inl ⟨rfl, h⟩)⟩
    · exact ⟨"date", (mem_missing_params _ _).mpr (Or.inr (Or.inl ⟨rfl, h⟩))⟩
    · exact ⟨"time", (mem_missing_params _ _).mpr (Or.inr (Or.inr (Or.inl ⟨rfl, h⟩)))⟩
  have hmiss_ne : get_missing_parameters (detailsOfExtracted info) ≠ [] := by
    rcases hmiss_mem with ⟨x, hx⟩
    intro hnil
    rw [hnil] at hx
    exact List.not_mem_nil x hx
  have hfmt : format_meeting_response (detailsOfExtracted info)
      (get_missing_parameters (detailsOfExtracted info)) =
      "I need the following information to schedule the meeting: " ++
        joinSep ", " (get_missing_parameters (detailsOfExtracted info)) ++ "." := by
    have : (get_missing_parameters (detailsOfExtracted info)).isEmpty = false := by
      cases hx : get_missing_parameters (detailsOfExtracted info)
      · exact absurd hx hmiss_ne
      · rfl
    simp [format_meeting_response, this]
  cases dbOk
  · refine ⟨by simp [extract_meeting_info], ?_⟩
    intro h
    exact absurd h (by simp)
  · by_cases hval : (validate_date_time info.date info.time).1 = false
    · refine ⟨by simp [extract_meeting_info, detailsOfExtracted, hval], ?_⟩
      intro _ hv2 _
      rw [hv2] at hval
      exact absurd hval (by simp)
    · have hvalt : (validate_date_time info.date info.time).1 = true := by
        cases hx : (validate_date_time info.date info.time).1
        · exact absurd hx hval
        · rfl
      by_cases hname : strTruthy info.client_name = true
      · have hdt : (strTruthy info.date && strTruthy info.time) = false := by
          rcases hmiss with h | h | h
          · rw [hname] at h; exact absurd h (by simp)
          · simp [h]
          · simp [h]
        by_cases hfound : (verify_client store (info.client_name.getD "")).1 = false
        · refine ⟨?_, ?_⟩
          · simp [extract_meeting_info, detailsOfExtracted, hvalt, hname, hfound,
              Effect.isCalCall]
          · intro _ _ hres
            rcases hres with h | h
            · rw [hname] at h; exact absurd h (by simp)
            · rw [hfound] at h; exact absurd h (by simp)
        · have hfoundt : (verify_client store (info.client_name.getD "")).1 = true := by
            cases hx : (verify_client store (info.client_name.getD "")).1
            · exact absurd hx hfound
            · rfl
          have hmr : get_missing_parameters
              { detailsOfExtracted info with
                client_email := (verify_client store
                  ((detailsOfExtracted info).client_name.getD "")).2 } =
              get_missing_parameters (detailsOfExtracted info) := rfl
          have hfr : format_meeting_response
              { detailsOfExtracted info with
                client_email := (verify_client store
                  ((detailsOfExtracted info).client_name.getD "")).2 }
              (get_missing_parameters (detailsOfExtracted info)) =
              format_meeting_response (detailsOfExtracted info)
                (get_missing_parameters (detailsOfExtracted info)) := rfl
          refine ⟨?_, ?_⟩
          · simp [extract_meeting_info, detailsOfExtracted, hvalt, hname, hfoundt, hdt,
              Effect.isCalCall]
          · intro _ _ _
            refine ⟨{ client_name := info.client_name
                      client_email := (verify_client store (info.client_name.getD "")).2
                      date := info.date
                      time := info.time
                      duration := info.duration.getD (some "1 hour")
                      purpose := info.purpose
                      error := none
                      calendar_event := none },
              get_missing_parameters (detailsOfExtracted info), ?_, hmiss_ne,
              ?_, ?_, ?_, ?_⟩
            · simp only [extract_meeting_info, detailsOfExtracted, meetingResult]
              simp only [detailsOfExtracted] at hvalt hname hfoundt hdt hmr hfr hfmt ⊢
              simp [hvalt, hname, hfoundt, hdt, hmr, hfr, hfmt]
            · rw [mem_missing_params]
              simp [detailsOfExtracted]
            · rw [mem_missing_params]
              simp [detailsOfExtracted]
            · rw [mem_missing_params]
              simp [detailsOfExtracted]
            · rw [mem_missing_params]
              simp [detailsOfExtracted]
      · have hnamef : strTruthy info.client_name = false := by
          cases hx : strTruthy info.client_name
          · rfl
          · exact absurd hx hname
        refine ⟨?_, ?_⟩
        · simp [extract_meeting_info, detailsOfExtracted, hvalt, hnamef]
        · intro _ _ _
          refine ⟨{ client_name := info.client_name
                    client_email := none
                    date := info.date
                    time := info.time
                    duration := info.duration.getD (some "1 hour")
                    purpose := info.purpose
                    error := none
                    calendar_event := none },
            get_missing_parameters (detailsOfExtracted info), ?_, hmiss_ne,
            ?_, ?_, ?_, ?_⟩
          · simp only [extract_meeting_info, detailsOfExtracted, meetingResult]
            simp only [detailsOfExtracted] at hvalt hnamef hfmt ⊢
            simp [hvalt, hnamef, hfmt]
          · rw [mem_missing_params]
            simp [detailsOfExtracted]
          · rw [mem_missing_params]
            simp [detailsOfExtracted]
          · rw [mem_missing_params]
            simp [detailsOfExtracted]
          · rw [mem_missing_params]
            simp [detailsOfExtracted]

/-- Witness for C3's amended theorem: date and purpose missing, client
resolved — no calendar call and the message asks for exactly "date" and
"purpose". -/
theorem extract_meeting_missing_field_no_calendar_witness :
    ((extract_meeting_info ⟨some "Acme", none, some "14:00", none, none⟩
        [⟨"Acme", some "a@x.com"⟩] "u@corp.com" true true).2.any Effect.isCalCall = false)
    ∧ ∃ dts miss,
        (extract_meeting_info ⟨some "Acme", none, some "14:00", none, none⟩
            [⟨"Acme", some "a@x.com"⟩] "u@corp.com" true true).1 =
          RespData.meeting dts (some miss)
            ("I need the following information to schedule the meeting: " ++
              joinSep ", " miss ++ ".")
        ∧ miss ≠ []
        ∧ (("client name" ∈ miss) ↔ strTruthy (some "Acme" : Option String) = false)
        ∧ (("date" ∈ miss) ↔ strTruthy (none : Option String) = false)
        ∧ (("time" ∈ miss) ↔ strTruthy (some "14:00" : Option String) = false)
        ∧ (("purpose" ∈ miss) ↔ strTruthy (none : Option String) = false) :=
  ⟨(extract_meeting_missing_field_no_calendar
      ⟨some "Acme", none, some "14:00", none, none⟩
      [⟨"Acme", some "a@x.com"⟩] "u@corp.com" true true
      (Or.inr (Or.inl (by decide)))).1,
   (extract_meeting_missing_field_no_calendar
      ⟨some "Acme", none, some "14:00", none, none⟩
      [⟨"Acme", some "a@x.com"⟩] "u@corp.com" true true
      (Or.inr (Or.inl (by decide)))).2 rfl (by decide) (Or.inr (by decide))⟩

/-- C8: an extracted date that is present but not in YYYY-MM-DD format,
or a present date that is fine while the extracted time is present but
not in 24-hour HH:MM format, makes the handler return a validation error
naming the offending value, with no directory lookup and no calendar
call for the turn (the empty effect list). -/
theorem extract_meeting_invalid_date_time_aborts
    (info : ExtractedMeeting) (store : List ClientRecord) (ue : String)
    (calOk : Bool) :
    (∀ d, info.date = some d → strTruthy info.date = true →
      isValidDateStr d = false →
      extract_meeting_info info store ue true calOk =
        (RespData.error ("Invalid date format: " ++ d ++
          ". Please use YYYY-MM-DD format."), []))
    ∧ (∀ t, info.time = some t → strTruthy info.time = true →
        isValidTimeStr t = false →
        (strTruthy info.date = false ∨ isValidDateStr (info.date.getD "") = true) →
        extract_meeting_info info store ue true calOk =
          (RespData.error ("Invalid time format: " ++ t ++
            ". Please use HH:MM format (24-hour)."), [])) := by
  constructor
  · intro d hd hdt hvd
    rw [hd] at hdt
    simp [extract_meeting_info, detailsOfExtracted, validate_date_time, hd, hdt, hvd]
  · intro t ht htt hvt hdok
    rw [ht] at htt
    have hfirst : (strTruthy info.date && !isValidDateStr (info.date.getD "")) = false := by
      rcases hdok with h | h <;> simp [h]
    simp [extract_meeting_info, detailsOfExtracted, validate_date_time, ht, htt, hvt, hfirst]

/-- Witness for C8: the spec's own example date "2024-13-45" aborts the
turn with a date validation error and an empty effect list. -/
theorem extract_meeting_invalid_date_time_aborts_witness :
    extract_meeting_info ⟨some "Acme", some "2024-13-45", some "14:00", none, some "sync"⟩
        [⟨"Acme", some "a@x.com"⟩] "u@corp.com" true true =
      (RespData.error ("Invalid date format: " ++ "2024-13-45" ++
        ". Please use YYYY-MM-DD format."), []) :=
  (extract_meeting_invalid_date_time_aborts
    ⟨some "Acme", some "2024-13-45", some "14:00", none, some "sync"⟩
    [⟨"Acme", some "a@x.com"⟩] "u@corp.com" true).1
    "2024-13-45" rfl (by decide) (by decide)

/-- C4 (code bug): in a fully specified, resolved turn the handler does
call the calendar interface, but the computed outcome is discarded: the
assignment `details.calendar_event = status` is commented out, the
response details carry no calendar-event status, the response (and hence
the formatted output) is identical whether the calendar call succeeded or
failed, and the formatted output contains no calendar outcome line. -/
theorem calendar_outcome_discarded_and_unreported :
    ((extract_meeting_info
        ⟨some "Acme", some "2024-03-01", some "14:00", none, some "quarterly review"⟩
        [⟨"Acme", some "acme@client.com"⟩] "user@corp.com" true true).2.any
          Effect.isCalCall) = true
    ∧ (extract_meeting_info
        ⟨some "Acme", some "2024-03-01", some "14:00", none, some "quarterly review"⟩
        [⟨"Acme", some "acme@client.com"⟩] "user@corp.com" true true).1 =
      RespData.meeting
        ⟨some "Acme", some "acme@client.com", some "2024-03-01", some "14:00",
         some "1 hour", some "quarterly review", none, none⟩
        (some [])
        "Meeting scheduled with Acme on 2024-03-01 at 14:00 for 1 hour. Purpose: quarterly review."
    ∧ (extract_meeting_info
        ⟨some "Acme", some "2024-03-01", some "14:00", none, some "quarterly review"⟩
        [⟨"Acme", some "acme@client.com"⟩] "user@corp.com" true false).1 =
      (extract_meeting_info
        ⟨some "Acme", some "2024-03-01", some "14:00", none, some "quarterly review"⟩
        [⟨"Acme", some "acme@client.com"⟩] "user@corp.com" true true).1
    ∧ format_response (extract_meeting_info
        ⟨some "Acme", some "2024-03-01", some "14:00", none, some "quarterly review"⟩
        [⟨"Acme", some "acme@client.com"⟩] "user@corp.com" true true).1 =
      "Meeting scheduled with Acme (email: acme@client.com) on 2024-03-01 at 14:00 for 1 hour. Purpose: quarterly review" := by
  refine ⟨by decide, by decide, by decide, by decide⟩

/-- Witness for C9: two meeting results with identical details but a
different (respectively absent) missing-field list and different upstream
messages format to the same string. -/
theorem format_response_meeting_ignores_upstream_missing_witness :
    format_response (RespData.meeting
      ⟨some "Acme", none, some "2024-03-01", some "14:00", some "1 hour", none, none, none⟩
      (some ["purpose"]) "upstream message one") =
    format_response (RespData.meeting
      ⟨some "Acme", none, some "2024-03-01", some "14:00", some "1 hour", none, none, none⟩
      none "upstream message two") :=
  format_response_meeting_ignores_upstream_missing
    ⟨some "Acme", none, some "2024-03-01", some "14:00", some "1 hour", none, none, none⟩
    (some ["purpose"]) none "upstream message one" "upstream message two"
